import Mathlib

/-!
Shallow embedding of the two scripts in this repository:
`match-reader.py`, a line-filtering file reader, and `vscode-project.py`,
a CLI that scaffolds or removes a project directory together with an
editor workspace descriptor file.

File contents are modelled as lists of characters, the filesystem as
functions from path strings to optional entries, and process effects
(existence checks, reads, writes, external commands, log lines, exit)
as explicit event traces paired with an outcome.  All definitions are
computable and decidable on concrete inputs.
-/

namespace MatchReader

/-- A dynamically typed Python value, to the granularity the scripts
distinguish: the `validate_bool` wrapper only asks whether a value is a
genuine `bool` (`isinstance(result, bool)`). -/
inductive PyVal where
  | bool (b : Bool)
  | int (n : Int)
  | str (s : String)
  | none
deriving DecidableEq

/-- `isinstance(result, bool)` on the modelled values. -/
def PyVal.isBool : PyVal → Bool
  | .bool _ => true
  | _ => false

/-- Result of calling a wrapped function: either a value or a raised
`TypeError` carrying its message. -/
inductive PyOutcome (α : Type) where
  | ok (v : α)
  | typeError (msg : String)
deriving DecidableEq

/-- `validate_bool` from `match-reader.py`: the wrapper calls `func`,
raises `TypeError(f-string naming func)` when the result is not a `bool`,
and otherwise returns the result unchanged. -/
def validate_bool {α : Type} (fname : String) (func : α → PyVal) (x : α) :
    PyOutcome PyVal :=
  let result := func x
  if result.isBool then PyOutcome.ok result
  else PyOutcome.typeError (fname ++ " must return a boolean value.")

/-- Iterating a Python text-mode file object yields its content split
after every newline character, each line keeping its trailing newline;
a final fragment without a newline is yielded as-is, and an empty tail
yields nothing.  `acc` holds the characters of the current line in
reverse. -/
def pyLinesAux : List Char → List Char → List (List Char)
  | [], acc => if acc = [] then [] else [acc.reverse]
  | c :: cs, acc =>
    if c = '\n' then (acc.reverse ++ ['\n']) :: pyLinesAux cs []
    else pyLinesAux cs (c :: acc)

/-- The lines of a file content, as Python file iteration yields them. -/
def pyLines (content : List Char) : List (List Char) := pyLinesAux content []

/-- `line[:-1] if '\n' in line else line` from the comprehension in
`read_lines`: drop the last character when the line contains a newline
anywhere. -/
def stripLine (l : List Char) : List Char :=
  if '\n' ∈ l then l.dropLast else l

/-- The list comprehension body of `read_lines`: keep each line for which
`match_callback` holds of the raw line, stripping it in the output. -/
def readLinesList : List (List Char) → (List Char → Bool) → List (List Char)
  | [], _ => []
  | l :: ls, p => if p l then stripLine l :: readLinesList ls p else readLinesList ls p

/-- The default `match_callback`, `lambda line: True`. -/
def default_callback : List Char → Bool := fun _ => true

/-- `read_lines` from `match-reader.py`.  The filesystem is a function
from paths to optional file contents; a missing file corresponds to
`open` raising `FileNotFoundError`, which the function catches, printing
a message and returning `None`.  The second component is the list of
printed lines. -/
def read_lines (fsys : String → Option (List Char)) (file_path : String)
    (match_callback : List Char → Bool) :
    Option (List (List Char)) × List String :=
  match fsys file_path with
  | some content => (some (readLinesList (pyLines content) match_callback), [])
  | none => (none, ["File \x27" ++ file_path ++ "\x27 not found."])

/-- Specification-side notion: a line with its trailing newline removed,
if present. -/
def stripNL (l : List Char) : List Char :=
  if l.getLast? = some '\n' then l.dropLast else l

theorem readLinesList_eq_filter_map (ls : List (List Char)) (p : List Char → Bool) :
    readLinesList ls p = (ls.filter p).map stripLine := by
  induction ls with
  | nil => rfl
  | cons l ls ih =>
    by_cases hp : p l <;> simp [readLinesList, List.filter_cons, hp, ih]

theorem stripLine_eq_stripNL (l : List Char) (h : '\n' ∉ l.dropLast) :
    stripLine l = stripNL l := by
  rcases l.eq_nil_or_concat with rfl | ⟨l', a, rfl⟩
  · rfl
  · rw [List.concat_eq_append] at *
    rw [List.dropLast_concat] at h
    by_cases ha : a = '\n'
    · subst ha
      rw [stripLine, stripNL, if_pos (by simp), if_pos (by simp [List.getLast?_concat])]
    · have hne : '\n' ≠ a := fun hx => ha hx.symm
      rw [stripLine, stripNL, if_neg (by simp [h, hne]),
        if_neg (by simp [List.getLast?_concat, ha])]

theorem pyLinesAux_no_inner_nl :
    ∀ (s acc : List Char), '\n' ∉ acc →
      ∀ l ∈ pyLinesAux s acc, '\n' ∉ l.dropLast := by
  intro s
  induction s with
  | nil =>
    intro acc hacc l hl
    unfold pyLinesAux at hl
    split at hl
    · simp at hl
    · simp only [List.mem_singleton] at hl
      subst hl
      intro hm
      exact hacc (List.mem_reverse.mp (List.dropLast_subset _ hm))
  | cons c cs ih =>
    intro acc hacc l hl
    unfold pyLinesAux at hl
    split at hl
    · rcases List.mem_cons.mp hl with rfl | htail
      · rw [List.dropLast_concat]
        intro hm
        exact hacc (List.mem_reverse.mp hm)
      · exact ih [] (by simp) l htail
    · rename_i hc
      refine ih (c :: acc) ?_ l hl
      intro hm
      rcases List.mem_cons.mp hm with heq | hin
      · exact hc heq.symm
      · exact hacc hin

theorem pyLines_no_inner_nl (content : List Char) :
    ∀ l ∈ pyLines content, '\n' ∉ l.dropLast :=
  pyLinesAux_no_inner_nl content [] (by simp)

/-- A concrete two-line filesystem used to instantiate the theorems:
`a.txt` holds the text `hi` newline `yo` (no final newline). -/
def exampleFsys : String → Option (List Char) :=
  fun q => if q = "a.txt" then some ['h', 'i', '\n', 'y', 'o'] else none

/-- A concrete predicate: the raw line contains the character `h`. -/
def examplePred : List Char → Bool := fun l => l.contains 'h'

/-- A concrete function returning a genuine boolean. -/
def exampleBoolFn : Nat → PyVal := fun _ => PyVal.bool true

/-- A concrete function returning a non-boolean. -/
def exampleIntFn : Nat → PyVal := fun _ => PyVal.int 3

/-- C1: for every file and predicate, `read_lines` returns exactly the
lines of the file with the trailing newline stripped, keeping a line if
and only if the predicate is true of it, in file order; with the default
predicate it returns every line, newline-stripped. -/
theorem read_lines_filters_and_strips
    (fsys : String → Option (List Char)) (file_path : String)
    (content : List Char) (p : List Char → Bool)
    (h : fsys file_path = some content) :
    (read_lines fsys file_path p).1 =
      some (((pyLines content).filter p).map stripNL) ∧
    (read_lines fsys file_path default_callback).1 =
      some ((pyLines content).map stripNL) := by
  have hmap : ∀ q : List Char → Bool,
      ((pyLines content).filter q).map stripLine =
        ((pyLines content).filter q).map stripNL := by
    intro q
    apply List.map_congr_left
    intro l hl
    exact stripLine_eq_stripNL l (pyLines_no_inner_nl content l (List.mem_of_mem_filter hl))
  constructor
  · simp only [read_lines, h]
    rw [readLinesList_eq_filter_map, hmap]
  · simp only [read_lines, h]
    rw [readLinesList_eq_filter_map, hmap]
    have hf : List.filter default_callback (pyLines content) = pyLines content :=
      List.filter_eq_self.mpr (fun a _ => rfl)
    rw [hf]

theorem read_lines_filters_and_strips_witness :
    exampleFsys "a.txt" = some ['h', 'i', '\n', 'y', 'o'] ∧
    (read_lines exampleFsys "a.txt" examplePred).1 =
      some (((pyLines ['h', 'i', '\n', 'y', 'o']).filter examplePred).map stripNL) ∧
    (read_lines exampleFsys "a.txt" default_callback).1 =
      some ((pyLines ['h', 'i', '\n', 'y', 'o']).map stripNL) :=
  ⟨rfl,
   (read_lines_filters_and_strips exampleFsys "a.txt" _ examplePred rfl).1,
   (read_lines_filters_and_strips exampleFsys "a.txt" _ examplePred rfl).2⟩

/-- C9: on a path naming no existing file, `read_lines` reports the
condition and returns the absent sentinel `none`, never an empty list;
the `FileNotFoundError` is caught inside the function (the model is a
total function, so nothing propagates past its boundary). -/
theorem read_lines_missing_file
    (fsys : String → Option (List Char)) (file_path : String)
    (p : List Char → Bool) (h : fsys file_path = none) :
    (read_lines fsys file_path p).1 = none ∧
    (read_lines fsys file_path p).1 ≠ some [] ∧
    (read_lines fsys file_path p).2 =
      ["File \x27" ++ file_path ++ "\x27 not found."] := by
  simp [read_lines, h]

theorem read_lines_missing_file_witness :
    exampleFsys "missing.txt" = none ∧
    (read_lines exampleFsys "missing.txt" examplePred).1 = none ∧
    (read_lines exampleFsys "missing.txt" examplePred).1 ≠ some [] :=
  ⟨rfl,
   (read_lines_missing_file exampleFsys "missing.txt" examplePred rfl).1,
   (read_lines_missing_file exampleFsys "missing.txt" examplePred rfl).2.1⟩

/-- C10: a function wrapped by `validate_bool` returns its underlying
result unchanged when that result is a boolean, and otherwise raises an
immediate `TypeError` whose message names the wrapped function. -/
theorem validate_bool_spec {α : Type} (fname : String) (func : α → PyVal) (x : α) :
    (∀ b : Bool, func x = PyVal.bool b →
      validate_bool fname func x = PyOutcome.ok (func x)) ∧
    ((∀ b : Bool, func x ≠ PyVal.bool b) →
      validate_bool fname func x =
        PyOutcome.typeError (fname ++ " must return a boolean value.")) := by
  constructor
  · intro b hb
    simp [validate_bool, hb, PyVal.isBool]
  · intro hnb
    cases hfx : func x with
    | bool b => exact absurd hfx (hnb b)
    | int n => simp [validate_bool, hfx, PyVal.isBool]
    | str s => simp [validate_bool, hfx, PyVal.isBool]
    | none => simp [validate_bool, hfx, PyVal.isBool]

theorem validate_bool_spec_witness :
    validate_bool "is_domain_name" exampleBoolFn 0 = PyOutcome.ok (PyVal.bool true) ∧
    validate_bool "bad_fn" exampleIntFn 0 =
      PyOutcome.typeError ("bad_fn" ++ " must return a boolean value.") :=
  ⟨(validate_bool_spec "is_domain_name" exampleBoolFn 0).1 true rfl,
   (validate_bool_spec "bad_fn" exampleIntFn 0).2
     (by intro b hb; exact PyVal.noConfusion hb)⟩

end MatchReader

namespace VSCodeProject

/-- JSON values, to the depth the workspace descriptor uses. -/
inductive Json where
  | str (s : String)
  | arr (xs : List Json)
  | obj (fields : List (String × Json))

/-- Contents of a file: plain text (`touch` creates empty text) or a
JSON document (`json.dump` writes the descriptor). -/
inductive FileData where
  | text (s : String)
  | jsonData (j : Json)

/-- The filesystem visible to the script: which paths are directories
and which paths are files with contents.  `Path.exists` is true when
either holds. -/
structure FS where
  dirs : String → Bool
  files : String → Option FileData

/-- The parsed `config.ini` with its two `core` keys.  Parse errors and
missing keys are not modelled: a `Config` value stands for a readable
configuration holding both keys. -/
structure Config where
  repository : String
  workspace : String

/-- The environment outside the script: whether a shell command exits
zero, the effect the command has on the filesystem, and whether
`shutil.rmtree` and `Path.unlink` succeed on a given path. -/
structure Oracle where
  gitOk : String → Bool
  gitEffect : String → FS → FS
  rmtreeOk : String → Bool
  unlinkOk : String → Bool

/-- Observable effects, in program order: an existence check or file
read, a filesystem mutation, an external command, a logged line. -/
inductive Event where
  | read (path : String)
  | write (path : String)
  | run (cmd : String)
  | log (msg : String)
deriving DecidableEq

/-- How an invocation ends: returning normally (process exit code 0) or
via `exit(code)`. -/
inductive Outcome where
  | success
  | exited (code : Nat)
deriving DecidableEq

/-- `Path.exists()`: the path is a directory or a file. -/
def fs_exists (fs : FS) (p : String) : Bool :=
  fs.dirs p || (fs.files p).isSome

/-- `Path.mkdir(parents=True, exist_ok=True)`.  The parent directories
are the configured roots and are not tracked separately. -/
def mkdir (fs : FS) (p : String) : FS :=
  { fs with dirs := fun q => if q = p then true else fs.dirs q }

/-- `Path.touch()`: create an empty file, leaving an existing file
unchanged. -/
def touch (fs : FS) (p : String) : FS :=
  { fs with files := fun q =>
      if q = p then some ((fs.files p).getD (FileData.text "")) else fs.files q }

/-- Opening a file with mode `w` and writing `d`: the previous content,
if any, is replaced. -/
def writeFile (fs : FS) (p : String) (d : FileData) : FS :=
  { fs with files := fun q => if q = p then some d else fs.files q }

/-- `shutil.rmtree`: the directory and everything below it disappear. -/
def rmtree (fs : FS) (p : String) : FS :=
  { dirs := fun q => if q = p ∨ (p ++ "/").isPrefixOf q then false else fs.dirs q,
    files := fun q => if (p ++ "/").isPrefixOf q then none else fs.files q }

/-- `Path.unlink`: the file disappears. -/
def unlink (fs : FS) (p : String) : FS :=
  { fs with files := fun q => if q = p then none else fs.files q }

/-- Python `str.split(sep)` for a one-character separator: split on
every occurrence, keeping empty pieces; the result is never empty. -/
def pySplitAux (sep : Char) : List Char → List Char → List (List Char)
  | [], acc => [acc.reverse]
  | c :: cs, acc =>
    if c = sep then acc.reverse :: pySplitAux sep cs []
    else pySplitAux sep cs (c :: acc)

/-- Python `s.split(sep)` on the characters of `s`. -/
def pySplit (sep : Char) (s : List Char) : List (List Char) := pySplitAux sep s []

/-- Python `\s` on the ASCII range: space, tab, newline, carriage
return, vertical tab, form feed. -/
def pyIsSpace (c : Char) : Bool :=
  c == ' ' || c == '\t' || c == '\n' || c == '\r' || c == '\x0b' || c == '\x0c'

/-- One alternative of the URL pattern: the given scheme prefix followed
by one or more non-whitespace characters, to the end of the string. -/
def urlArm (cs : List Char) (pfx : List Char) : Bool :=
  pfx.isPrefixOf cs && !(cs.drop pfx.length).isEmpty
    && (cs.drop pfx.length).all (fun c => !pyIsSpace c)

/-- `re.match` against `ARGS_PROJECT_URL_PATTERN`,
the anchored pattern for `http://`, `https://` or `git://` URLs. -/
def matches_url (s : String) : Bool :=
  urlArm s.data "http://".data || urlArm s.data "https://".data
    || urlArm s.data "git://".data

/-- `link.split('/')[-1].split('.')[0]` from `create_project`: the final
path segment of the URL, truncated at its first dot. -/
def derive_name (link : String) : String :=
  String.mk ((pySplit '.' ((pySplit '/' link.data).getLastD [])).headD [])

/-- The final path segment of a URL, `link.split('/')[-1]`. -/
def lastSegment (link : String) : String :=
  String.mk ((pySplit '/' link.data).getLastD [])

/-- Rejoin dot-separated pieces with dots. -/
def joinDots : List (List Char) → List Char
  | [] => []
  | [s] => s
  | s :: rest => s ++ '.' :: joinDots rest

/-- Modelled from the spec: the words "derive the project name from the
URL final path segment (strip any file extension)" — the segment with
its file extension, the suffix introduced by the final dot, removed; a
segment without a dot is unchanged. -/
def stripLastExt (s : String) : String :=
  String.mk (joinDots (if (pySplit '.' s.data).length ≤ 1
    then pySplit '.' s.data else (pySplit '.' s.data).dropLast))

/-- `PROJECT_EXISTS_ERROR_MSG.format(name)`. -/
def projectExistsMsg (name : String) : String := "项目 " ++ name ++ " 已存在"

/-- `FILE_NOT_FOUND_ERROR_MSG.format(x)`. -/
def fileNotFoundMsg (x : String) : String := "不存在 " ++ x

/-- The message printed when `subprocess.run(check=True)` raises; the
rendering of the `CalledProcessError` is summarised by the command. -/
def cmdFailMsg (cmd : String) : String := "Command execution failed: " ++ cmd

/-- The message of `error_exit` on a failed `shutil.rmtree`; the
appended `OSError` text is elided. -/
def notCleanMsg (x : String) : String := "NOT clean \"" ++ x ++ "\""

/-- `print_action` line for an added artifact. -/
def actAdd (p : String) : String := "add + " ++ p

/-- `print_action` line for a removed artifact. -/
def actClean (p : String) : String := "clean - " ++ p

/-- `directory_path.joinpath(name)`. -/
def projectDirOf (cfg : Config) (name : String) : String :=
  cfg.repository ++ "/" ++ name

/-- `workspace_path.joinpath(f-string name.code-workspace)`. -/
def workspaceFileOf (cfg : Config) (name : String) : String :=
  cfg.workspace ++ "/" ++ name ++ ".code-workspace"

/-- The `workspace_data` dictionary of `create_project`. -/
def workspaceJson (project_dir name : String) : Json :=
  Json.obj [("folders",
    Json.arr [Json.obj [("path", Json.str project_dir), ("name", Json.str name)]])]

/-- `execute_command`: run the shell command; a non-zero exit raises
`CalledProcessError`, which is caught and reported, and the function
returns normally either way. -/
def execute_command (cmd : String) (ora : Oracle) (fs : FS) : FS × List Event :=
  if ora.gitOk cmd then (ora.gitEffect cmd fs, [Event.run cmd])
  else (ora.gitEffect cmd fs, [Event.run cmd, Event.log (cmdFailMsg cmd)])

/-- `create_project` from `vscode-project.py`.  When `is_clone` is set
the argument is a URL and the name is derived from it.  If the project
directory already exists, `error_exit` reports and exits 1 before any
mutation.  Otherwise the directory is created and initialised (bare
name) or cloned (URL), and in both cases the workspace descriptor is
then written unconditionally and the two artifacts are reported. -/
def create_project (name0 : String) (cfg : Config) (is_clone : Bool)
    (ora : Oracle) (fs : FS) : FS × List Event × Outcome :=
  let link := name0
  let name := if is_clone then derive_name link else name0
  let project_dir := projectDirOf cfg name
  let workspace_file := workspaceFileOf cfg name
  let wdata := workspaceJson project_dir name
  if fs_exists fs project_dir = false then
    if is_clone = false then
      let fs1 := mkdir fs project_dir
      let cmd := "git init " ++ project_dir
      let g := execute_command cmd ora fs1
      let fs2 := touch g.1 (project_dir ++ "/README.md")
      let fs3 := touch fs2 (project_dir ++ "/.gitignore")
      let fs4 := writeFile fs3 workspace_file (FileData.jsonData wdata)
      (fs4,
       [Event.read project_dir, Event.write project_dir] ++ g.2 ++
         [Event.write (project_dir ++ "/README.md"),
          Event.write (project_dir ++ "/.gitignore"),
          Event.write workspace_file,
          Event.log (actAdd project_dir), Event.log (actAdd workspace_file)],
       Outcome.success)
    else
      let cmd := "git clone " ++ link ++ " " ++ project_dir
      let g := execute_command cmd ora fs
      let fs4 := writeFile g.1 workspace_file (FileData.jsonData wdata)
      (fs4,
       [Event.read project_dir] ++ g.2 ++
         [Event.write workspace_file,
          Event.log (actAdd project_dir), Event.log (actAdd workspace_file)],
       Outcome.success)
  else
    (fs, [Event.read project_dir, Event.log (projectExistsMsg name)],
     Outcome.exited 1)

/-- `clean_project` from `vscode-project.py`.  The opening guard
`not project_dir.exists() and not workspace_file.exists()` short
circuits, so the descriptor is only tested there when the directory is
absent.  Each deletion is attempted under `try`; an `OSError` goes to
`error_exit`, which logs and exits 1 immediately, skipping everything
after it. -/
def clean_project (name : String) (cfg : Config) (ora : Oracle) (fs : FS) :
    FS × List Event × Outcome :=
  let project_dir := projectDirOf cfg name
  let workspace_file := workspaceFileOf cfg name
  let condEv :=
    if fs_exists fs project_dir then [Event.read project_dir]
    else [Event.read project_dir, Event.read workspace_file]
  if fs_exists fs project_dir = false ∧ fs_exists fs workspace_file = false then
    (fs, condEv ++ [Event.log (fileNotFoundMsg name)], Outcome.exited 1)
  else
    if fs_exists fs project_dir then
      if ora.rmtreeOk project_dir then
        let fs1 := rmtree fs project_dir
        if fs_exists fs1 workspace_file then
          if ora.unlinkOk workspace_file then
            (unlink fs1 workspace_file,
             condEv ++ [Event.read project_dir, Event.write project_dir,
               Event.read workspace_file, Event.write workspace_file,
               Event.log (actClean project_dir), Event.log (actClean workspace_file)],
             Outcome.success)
          else
            (fs1,
             condEv ++ [Event.read project_dir, Event.write project_dir,
               Event.read workspace_file, Event.log (notCleanMsg workspace_file)],
             Outcome.exited 1)
        else
          (fs1,
           condEv ++ [Event.read project_dir, Event.write project_dir,
             Event.read workspace_file,
             Event.log (actClean project_dir), Event.log (actClean workspace_file)],
           Outcome.success)
      else
        (fs, condEv ++ [Event.read project_dir, Event.log (notCleanMsg name)],
         Outcome.exited 1)
    else
      if fs_exists fs workspace_file then
        if ora.unlinkOk workspace_file then
          (unlink fs workspace_file,
           condEv ++ [Event.read project_dir, Event.read workspace_file,
             Event.write workspace_file,
             Event.log (actClean project_dir), Event.log (actClean workspace_file)],
           Outcome.success)
        else
          (fs, condEv ++ [Event.read project_dir, Event.read workspace_file,
             Event.log (notCleanMsg workspace_file)],
           Outcome.exited 1)
      else
        (fs, condEv ++ [Event.read project_dir, Event.read workspace_file,
           Event.log (actClean project_dir), Event.log (actClean workspace_file)],
         Outcome.success)

/-- The project name `create_project` ends up using: the argument
itself for a bare name, the derived name for a URL. -/
def createdName (name0 : String) (is_clone : Bool) : String :=
  if is_clone then derive_name name0 else name0

/-- The version-control command `create_project` issues. -/
def gitCmd (name0 : String) (cfg : Config) (is_clone : Bool) : String :=
  if is_clone then
    "git clone " ++ name0 ++ " " ++ projectDirOf cfg (createdName name0 is_clone)
  else
    "git init " ++ projectDirOf cfg (createdName name0 is_clone)

theorem execute_command_fst (cmd : String) (ora : Oracle) (fs : FS)
    (hgit : ora.gitEffect = fun _ f => f) :
    (execute_command cmd ora fs).1 = fs := by
  unfold execute_command
  rw [hgit]
  split <;> rfl

/-- A concrete configuration: repository root `/r`, workspace root `/w`. -/
def cfgRW : Config := { repository := "/r", workspace := "/w" }

/-- A benign environment: commands succeed without touching the modelled
filesystem, deletions succeed. -/
def oraOk : Oracle :=
  { gitOk := fun _ => true, gitEffect := fun _ f => f,
    rmtreeOk := fun _ => true, unlinkOk := fun _ => true }

/-- An environment whose version-control commands exit non-zero. -/
def oraGitFail : Oracle :=
  { gitOk := fun _ => false, gitEffect := fun _ f => f,
    rmtreeOk := fun _ => true, unlinkOk := fun _ => true }

/-- An environment where `shutil.rmtree` fails with an `OSError`. -/
def oraRmFail : Oracle :=
  { gitOk := fun _ => true, gitEffect := fun _ f => f,
    rmtreeOk := fun _ => false, unlinkOk := fun _ => true }

/-- An empty filesystem. -/
def fsEmpty : FS := { dirs := fun _ => false, files := fun _ => none }

/-- A filesystem holding only the project directory `/r/foo`. -/
def fsOnlyDir : FS :=
  { dirs := fun q => q == "/r/foo", files := fun _ => none }

/-- A filesystem holding only the descriptor `/w/foo.code-workspace`. -/
def fsOnlyWs : FS :=
  { dirs := fun _ => false,
    files := fun q =>
      if q = "/w/foo.code-workspace" then some (FileData.text "old") else none }

/-- A filesystem holding both artifacts of project `foo`. -/
def fsBoth : FS :=
  { dirs := fun q => q == "/r/foo",
    files := fun q =>
      if q = "/w/foo.code-workspace" then some (FileData.text "old") else none }

/-- A filesystem holding a stale descriptor for `bar` and no project
directory, to exercise the clone-mode overwrite. -/
def fsStaleBar : FS :=
  { dirs := fun _ => false,
    files := fun q =>
      if q = "/w/bar.code-workspace" then some (FileData.text "stale") else none }

theorem headD_eq_joinDots (parts : List (List Char)) (h : parts.length ≤ 2) :
    parts.headD [] =
      joinDots (if parts.length ≤ 1 then parts else parts.dropLast) := by
  match parts with
  | [] => rfl
  | [a] => rfl
  | [a, b] => rfl
  | a :: b :: c :: t => simp [List.length_cons] at h

/-- C2 counterexample: the URL `https://example.com/org/archive.tar.gz`
is accepted by the URL pattern; `create_project` derives the name
`archive` from it, while the final path segment with its file extension
stripped is `archive.tar` — the two differ, refuting the claim as
stated for this URL. -/
theorem derive_name_extension_cex :
    matches_url "https://example.com/org/archive.tar.gz" = true ∧
    derive_name "https://example.com/org/archive.tar.gz" = "archive" ∧
    stripLastExt (lastSegment "https://example.com/org/archive.tar.gz") =
      "archive.tar" ∧
    ("archive" : String) ≠ "archive.tar" := by
  refine ⟨by decide, by decide, by decide, by decide⟩

/-- C2 amended: the project name used by create is the URL final path
segment truncated at its first dot; when the segment contains at most
one dot this coincides with stripping the file extension, and in
particular `https://example.com/org/bar.git` yields `bar`. -/
theorem derive_name_first_dot (url : String) :
    ((pySplit '.' (lastSegment url).data).length ≤ 2 →
      derive_name url = stripLastExt (lastSegment url)) ∧
    derive_name "https://example.com/org/bar.git" = "bar" := by
  constructor
  · intro h
    exact congrArg String.mk (headD_eq_joinDots _ h)
  · decide

theorem derive_name_first_dot_witness :
    (pySplit '.' (lastSegment "https://example.com/org/bar.git").data).length ≤ 2 ∧
    derive_name "https://example.com/org/bar.git" =
      stripLastExt (lastSegment "https://example.com/org/bar.git") :=
  ⟨by decide,
   (derive_name_first_dot "https://example.com/org/bar.git").1 (by decide)⟩

/-- C5: when the target project directory already exists, create exits
non-zero having touched nothing: the returned filesystem is the input
one, and the trace holds exactly the existence check and the error
line — no write, no command. -/
theorem create_existing_unchanged (name0 : String) (cfg : Config)
    (is_clone : Bool) (ora : Oracle) (fs : FS)
    (h : fs_exists fs (projectDirOf cfg (createdName name0 is_clone)) = true) :
    (create_project name0 cfg is_clone ora fs).1 = fs ∧
    (create_project name0 cfg is_clone ora fs).2.2 = Outcome.exited 1 ∧
    (create_project name0 cfg is_clone ora fs).2.1 =
      [Event.read (projectDirOf cfg (createdName name0 is_clone)),
       Event.log (projectExistsMsg (createdName name0 is_clone))] := by
  unfold createdName at h
  refine ⟨?_, ?_, ?_⟩ <;> simp [create_project, h, createdName]

theorem create_existing_unchanged_witness :
    fs_exists fsOnlyDir (projectDirOf cfgRW (createdName "foo" false)) = true ∧
    (create_project "foo" cfgRW false oraOk fsOnlyDir).1 = fsOnlyDir ∧
    (create_project "foo" cfgRW false oraOk fsOnlyDir).2.2 = Outcome.exited 1 :=
  ⟨by decide,
   (create_existing_unchanged "foo" cfgRW false oraOk fsOnlyDir (by decide)).1,
   (create_existing_unchanged "foo" cfgRW false oraOk fsOnlyDir (by decide)).2.1⟩

/-- C6: on every successful create — bare name or URL alike — the
workspace descriptor is written in full over whatever was there before:
the descriptor file afterwards holds exactly the folders JSON
referencing the project directory, for every prior state of that file
and regardless of what the external command did; in the bare-name mode
the project directory is produced as well (there the external command
is assumed not to alter the modelled artifacts). -/
theorem create_writes_artifacts (name0 : String) (cfg : Config) (is_clone : Bool)
    (ora : Oracle) (fs : FS)
    (hdir : fs_exists fs (projectDirOf cfg (createdName name0 is_clone)) = false) :
    (create_project name0 cfg is_clone ora fs).2.2 = Outcome.success ∧
    (create_project name0 cfg is_clone ora fs).1.files
        (workspaceFileOf cfg (createdName name0 is_clone)) =
      some (FileData.jsonData
        (Json.obj [("folders",
          Json.arr [Json.obj
            [("path", Json.str (projectDirOf cfg (createdName name0 is_clone))),
             ("name", Json.str (createdName name0 is_clone))]])])) ∧
    (is_clone = false → ora.gitEffect = (fun _ f => f) →
      (create_project name0 cfg is_clone ora fs).1.dirs
        (projectDirOf cfg (createdName name0 is_clone)) = true) := by
  cases is_clone with
  | false =>
    simp only [createdName, Bool.false_eq_true, if_false] at hdir
    refine ⟨?_, ?_, ?_⟩
    · simp [create_project, createdName, hdir]
    · simp [create_project, createdName, hdir, writeFile, workspaceJson]
    · intro _ hgit
      have hcmd : (execute_command ("git init " ++ projectDirOf cfg name0) ora
          (mkdir fs (projectDirOf cfg name0))).1 =
            mkdir fs (projectDirOf cfg name0) :=
        execute_command_fst _ ora _ hgit
      simp only [create_project, createdName, Bool.false_eq_true, if_false, hdir,
        eq_self_iff_true, if_true, hcmd, writeFile, touch]
      simp [mkdir]
  | true =>
    simp only [createdName, if_true] at hdir
    refine ⟨?_, ?_, ?_⟩
    · simp [create_project, createdName, hdir]
    · simp [create_project, createdName, hdir, writeFile, workspaceJson]
    · intro h _
      exact absurd h (by simp)

theorem create_writes_artifacts_witness :
    fs_exists fsEmpty (projectDirOf cfgRW (createdName "foo" false)) = false ∧
    (create_project "foo" cfgRW false oraOk fsEmpty).2.2 = Outcome.success ∧
    (create_project "foo" cfgRW false oraOk fsEmpty).1.files "/w/foo.code-workspace" =
      some (FileData.jsonData
        (Json.obj [("folders",
          Json.arr [Json.obj [("path", Json.str "/r/foo"),
            ("name", Json.str "foo")]])])) ∧
    (create_project "foo" cfgRW false oraOk fsEmpty).1.dirs "/r/foo" = true ∧
    fs_exists fsStaleBar
      (projectDirOf cfgRW (createdName "https://example.com/org/bar.git" true)) = false ∧
    (create_project "https://example.com/org/bar.git" cfgRW true oraOk
      fsStaleBar).2.2 = Outcome.success ∧
    (create_project "https://example.com/org/bar.git" cfgRW true oraOk
        fsStaleBar).1.files "/w/bar.code-workspace" =
      some (FileData.jsonData
        (Json.obj [("folders",
          Json.arr [Json.obj [("path", Json.str "/r/bar"),
            ("name", Json.str "bar")]])])) :=
  ⟨by decide,
   (create_writes_artifacts "foo" cfgRW false oraOk fsEmpty (by decide)).1,
   (create_writes_artifacts "foo" cfgRW false oraOk fsEmpty (by decide)).2.1,
   (create_writes_artifacts "foo" cfgRW false oraOk fsEmpty (by decide)).2.2
     rfl rfl,
   by decide,
   (create_writes_artifacts "https://example.com/org/bar.git" cfgRW true oraOk
     fsStaleBar (by decide)).1,
   (create_writes_artifacts "https://example.com/org/bar.git" cfgRW true oraOk
     fsStaleBar (by decide)).2.1⟩

/-- C7: when the version-control command exits non-zero during create,
the failure is caught inside `execute_command` and reported, and
`create_project` still runs to completion: it writes the workspace
descriptor and returns normally, in both the init and the clone mode. -/
theorem create_git_failure_still_writes (name0 : String) (cfg : Config)
    (is_clone : Bool) (ora : Oracle) (fs : FS)
    (hdir : fs_exists fs (projectDirOf cfg (createdName name0 is_clone)) = false)
    (hfail : ora.gitOk (gitCmd name0 cfg is_clone) = false) :
    (create_project name0 cfg is_clone ora fs).2.2 = Outcome.success ∧
    (create_project name0 cfg is_clone ora fs).1.files
        (workspaceFileOf cfg (createdName name0 is_clone)) =
      some (FileData.jsonData
        (workspaceJson (projectDirOf cfg (createdName name0 is_clone))
          (createdName name0 is_clone))) ∧
    Event.log (cmdFailMsg (gitCmd name0 cfg is_clone)) ∈
      (create_project name0 cfg is_clone ora fs).2.1 := by
  cases is_clone with
  | false =>
    simp only [createdName, Bool.false_eq_true, if_false] at hdir
    simp only [gitCmd, createdName, Bool.false_eq_true, if_false] at hfail
    refine ⟨?_, ?_, ?_⟩ <;>
      simp [create_project, createdName, gitCmd, hdir, execute_command, hfail,
        writeFile, touch, mkdir, workspaceJson]
  | true =>
    simp only [createdName, if_true] at hdir
    simp only [gitCmd, createdName, if_true] at hfail
    refine ⟨?_, ?_, ?_⟩ <;>
      simp [create_project, createdName, gitCmd, hdir, execute_command, hfail,
        writeFile, workspaceJson]

theorem create_git_failure_still_writes_witness :
    fs_exists fsEmpty (projectDirOf cfgRW (createdName "foo" false)) = false ∧
    oraGitFail.gitOk (gitCmd "foo" cfgRW false) = false ∧
    (create_project "foo" cfgRW false oraGitFail fsEmpty).2.2 = Outcome.success ∧
    Event.log (cmdFailMsg (gitCmd "foo" cfgRW false)) ∈
      (create_project "foo" cfgRW false oraGitFail fsEmpty).2.1 :=
  ⟨by decide, rfl,
   (create_git_failure_still_writes "foo" cfgRW false oraGitFail fsEmpty
     (by decide) rfl).1,
   (create_git_failure_still_writes "foo" cfgRW false oraGitFail fsEmpty
     (by decide) rfl).2.2⟩

/-- C8: clean tolerates partial state.  When only the workspace
descriptor exists and deleting it succeeds, clean returns normally
(exit 0), removes exactly the descriptor and touches nothing else; when
neither artifact exists, clean exits non-zero leaving the filesystem
untouched. -/
theorem clean_partial_state (name : String) (cfg : Config) (ora : Oracle) (fs : FS) :
    (fs_exists fs (projectDirOf cfg name) = false →
     fs_exists fs (workspaceFileOf cfg name) = true →
     ora.unlinkOk (workspaceFileOf cfg name) = true →
       (clean_project name cfg ora fs).2.2 = Outcome.success ∧
       (clean_project name cfg ora fs).1.files (workspaceFileOf cfg name) = none ∧
       (clean_project name cfg ora fs).1.dirs = fs.dirs ∧
       ∀ q, q ≠ workspaceFileOf cfg name →
         (clean_project name cfg ora fs).1.files q = fs.files q) ∧
    (fs_exists fs (projectDirOf cfg name) = false →
     fs_exists fs (workspaceFileOf cfg name) = false →
       (clean_project name cfg ora fs).1 = fs ∧
       (clean_project name cfg ora fs).2.2 = Outcome.exited 1) := by
  constructor
  · intro hpd hwf hok
    refine ⟨?_, ?_, ?_, ?_⟩ <;>
      simp [clean_project, hpd, hwf, hok, unlink]
    intro q hq
    simp [fun h => hq h]
  · intro hpd hwf
    refine ⟨?_, ?_⟩ <;> simp [clean_project, hpd, hwf]

theorem clean_partial_state_witness :
    fs_exists fsOnlyWs (projectDirOf cfgRW "foo") = false ∧
    fs_exists fsOnlyWs (workspaceFileOf cfgRW "foo") = true ∧
    (clean_project "foo" cfgRW oraOk fsOnlyWs).2.2 = Outcome.success ∧
    (clean_project "foo" cfgRW oraOk fsOnlyWs).1.files
      (workspaceFileOf cfgRW "foo") = none ∧
    (clean_project "foo" cfgRW oraOk fsOnlyWs).1.files "/r/other" =
      fsOnlyWs.files "/r/other" ∧
    (clean_project "foo" cfgRW oraOk fsEmpty).1 = fsEmpty ∧
    (clean_project "foo" cfgRW oraOk fsEmpty).2.2 = Outcome.exited 1 :=
  ⟨by decide, by decide,
   ((clean_partial_state "foo" cfgRW oraOk fsOnlyWs).1 (by decide) (by decide) rfl).1,
   ((clean_partial_state "foo" cfgRW oraOk fsOnlyWs).1 (by decide) (by decide) rfl).2.1,
   ((clean_partial_state "foo" cfgRW oraOk fsOnlyWs).1 (by decide) (by decide)
     rfl).2.2.2 "/r/other" (by decide),
   ((clean_partial_state "foo" cfgRW oraOk fsEmpty).2 (by decide) (by decide)).1,
   ((clean_partial_state "foo" cfgRW oraOk fsEmpty).2 (by decide) (by decide)).2⟩

/-- C3 counterexample: with both artifacts of `foo` present and
`shutil.rmtree` failing on the project directory, clean exits 1 with
only the directory failure reported: the descriptor is left in place,
never deleted, and no line about it is ever logged — the failure on one
artifact does suppress the handling and reporting of the other. -/
theorem clean_rmtree_failure_suppresses_cex :
    (clean_project "foo" cfgRW oraRmFail fsBoth).2.2 = Outcome.exited 1 ∧
    (clean_project "foo" cfgRW oraRmFail fsBoth).1.files "/w/foo.code-workspace" =
      some (FileData.text "old") ∧
    (clean_project "foo" cfgRW oraRmFail fsBoth).2.1 =
      [Event.read "/r/foo", Event.read "/r/foo", Event.log (notCleanMsg "foo")] ∧
    Event.write "/w/foo.code-workspace" ∉
      (clean_project "foo" cfgRW oraRmFail fsBoth).2.1 ∧
    Event.log (actClean "/w/foo.code-workspace") ∉
      (clean_project "foo" cfgRW oraRmFail fsBoth).2.1 ∧
    Event.log (notCleanMsg "/w/foo.code-workspace") ∉
      (clean_project "foo" cfgRW oraRmFail fsBoth).2.1 :=
  ⟨by decide, rfl, by decide, by decide, by decide, by decide⟩

/-- C3 amended: when deleting the project directory fails with a
filesystem error during clean, the failure is reported for that
artifact and the process exits non-zero immediately; the failure aborts
the entire remaining cleanup, so the workspace descriptor — whether or
not it exists — is neither removed nor reported. -/
theorem clean_rmtree_failure_aborts (name : String) (cfg : Config)
    (ora : Oracle) (fs : FS)
    (hpd : fs_exists fs (projectDirOf cfg name) = true)
    (hrm : ora.rmtreeOk (projectDirOf cfg name) = false) :
    (clean_project name cfg ora fs).1 = fs ∧
    (clean_project name cfg ora fs).2.2 = Outcome.exited 1 ∧
    (clean_project name cfg ora fs).2.1 =
      [Event.read (projectDirOf cfg name), Event.read (projectDirOf cfg name),
       Event.log (notCleanMsg name)] := by
  refine ⟨?_, ?_, ?_⟩ <;> simp [clean_project, hpd, hrm]

theorem clean_rmtree_failure_aborts_witness :
    fs_exists fsBoth (projectDirOf cfgRW "foo") = true ∧
    oraRmFail.rmtreeOk (projectDirOf cfgRW "foo") = false ∧
    (clean_project "foo" cfgRW oraRmFail fsBoth).1 = fsBoth ∧
    (clean_project "foo" cfgRW oraRmFail fsBoth).2.2 = Outcome.exited 1 :=
  ⟨by decide, rfl,
   (clean_rmtree_failure_aborts "foo" cfgRW oraRmFail fsBoth (by decide) rfl).1,
   (clean_rmtree_failure_aborts "foo" cfgRW oraRmFail fsBoth (by decide) rfl).2.1⟩

end VSCodeProject
